import Mathlib

/-!
Shallow embedding of the HighPerformanceTimer repository
(src/PerformanceTimer11/PerformanceTimer11.hpp and
src/PerformanceTimer98/PerformanceTimer98.hpp).

Modelling conventions:
* C++ `double` values are modelled as exact rationals (`ℚ`): the source
  performs only field accesses, additions, subtractions, multiplications,
  divisions and comparisons on them, all of which we mirror exactly.
* Clock reads (`Clock::now()`, `QueryPerformanceCounter`, `gettimeofday`)
  are inputs: each mutating operation that reads the clock takes the
  reading as an explicit argument.
* `LARGE_INTEGER.QuadPart` is a 64-bit integer; counter values and their
  differences stay far below 2^63 in any real execution, so it is
  modelled as `ℤ` (overflow does not matter for any claim here).
* `assert(...)` is a no-op in release builds; we model the release
  semantics in the state functions and expose the debug-build assertion
  trigger as a separate boolean predicate.
-/

namespace PT11

/-- State of `PerformanceTimer11`: `m_startTime` and `m_stopTime` are
`Clock::time_point`s measured in seconds since the clock epoch
(`time_point`'s default constructor yields the epoch, i.e. 0), and
`m_interval` is a `std::chrono::duration<double>` in seconds. -/
structure State where
  m_startTime : ℚ
  m_stopTime  : ℚ
  m_interval  : ℚ
deriving DecidableEq, Repr

/-- `PerformanceTimer11() = default`: time points at the clock epoch,
`m_interval = Seconds(1) / 60`. -/
def State.mk0 : State :=
  { m_startTime := 0, m_stopTime := 0, m_interval := 1 / 60 }

/-- `IsSupportedPlatform`: `return true;`. -/
def IsSupportedPlatform (_ : State) : Bool := true

/-- `GetInterval`: `return m_interval.count();`. -/
def GetInterval (s : State) : ℚ := s.m_interval

/-- `SetInterval` (release semantics): if `ticksPerSecond == 0` return
without change, else `m_interval = Seconds(1) / ticksPerSecond`. -/
def SetInterval (s : State) (ticksPerSecond : ℚ) : State :=
  if ticksPerSecond = 0 then s
  else { s with m_interval := 1 / ticksPerSecond }

/-- The debug-build `assert(false)` in `SetInterval` fires exactly when
`ticksPerSecond == 0`. -/
def SetIntervalAsserts (ticksPerSecond : ℚ) : Bool := ticksPerSecond == 0

/-- `Start`: `m_startTime = Clock::now(); m_stopTime = m_startTime;`. -/
def Start (s : State) (now : ℚ) : State :=
  { s with m_startTime := now, m_stopTime := now }

/-- `Stop`: `m_stopTime = Clock::now();`. -/
def Stop (s : State) (now : ℚ) : State :=
  { s with m_stopTime := now }

/-- `GetElapsed`: `Milliseconds(m_stopTime - m_startTime).count()` —
the seconds-valued difference converted to milliseconds. -/
def GetElapsed (s : State) : ℚ := (s.m_stopTime - s.m_startTime) * 1000

/-- `GetRemaining`: `(m_interval - Milliseconds(m_stopTime - m_startTime)).count()`;
the common type of `Seconds` and `Milliseconds` is milliseconds, so this
is `m_interval` in milliseconds minus the elapsed milliseconds. -/
def GetRemaining (s : State) : ℚ :=
  s.m_interval * 1000 - (s.m_stopTime - s.m_startTime) * 1000

/-- `IntervalHasElapsed`: `m_stopTime - m_startTime >= m_interval`,
both sides in seconds. -/
def IntervalHasElapsed (s : State) : Bool :=
  decide (s.m_stopTime - s.m_startTime ≥ s.m_interval)

end PT11

namespace PT98W

/-- State of the Windows branch of `PerformanceTimer98`:
counter values (`LARGE_INTEGER.QuadPart`) are integers in ticks,
`m_perMillisecond` and `m_interval` are `double`s. -/
structure State where
  m_perSecond      : ℤ
  m_startTime      : ℤ
  m_stopTime       : ℤ
  m_perMillisecond : ℚ
  m_interval       : ℚ
  m_valid          : Bool
deriving DecidableEq, Repr

/-- The constructor: `QueryPerformanceFrequency` writes `freq` ticks/second
and reports success `valid`; `m_startTime = m_stopTime = 0`;
`m_interval = m_perSecond.QuadPart / 60.0`;
`m_perMillisecond = m_perSecond.QuadPart / 1000.0`. -/
def State.mk0 (freq : ℤ) (valid : Bool) : State :=
  { m_perSecond := freq, m_startTime := 0, m_stopTime := 0,
    m_perMillisecond := (freq : ℚ) / 1000,
    m_interval := (freq : ℚ) / 60, m_valid := valid }

/-- `IsSupportedPlatform`: `return m_valid;`. -/
def IsSupportedPlatform (s : State) : Bool := s.m_valid

/-- `GetInterval`: `return m_interval / m_perSecond.QuadPart;`. -/
def GetInterval (s : State) : ℚ := s.m_interval / (s.m_perSecond : ℚ)

/-- `SetInterval` (release semantics): if `ticksPerSecond == 0` return
without change, else `m_interval = m_perSecond.QuadPart / ticksPerSecond`. -/
def SetInterval (s : State) (ticksPerSecond : ℚ) : State :=
  if ticksPerSecond = 0 then s
  else { s with m_interval := (s.m_perSecond : ℚ) / ticksPerSecond }

/-- The debug-build `assert(false)` in `SetInterval` fires exactly when
`ticksPerSecond == 0`. -/
def SetIntervalAsserts (ticksPerSecond : ℚ) : Bool := ticksPerSecond == 0

/-- `Start`: `QueryPerformanceCounter(&m_startTime); m_stopTime = m_startTime;`. -/
def Start (s : State) (now : ℤ) : State :=
  { s with m_startTime := now, m_stopTime := now }

/-- `Stop`: `QueryPerformanceCounter(&m_stopTime);`. -/
def Stop (s : State) (now : ℤ) : State :=
  { s with m_stopTime := now }

/-- `GetElapsed`: `(m_stopTime.QuadPart - m_startTime.QuadPart) / m_perMillisecond`. -/
def GetElapsed (s : State) : ℚ :=
  ((s.m_stopTime - s.m_startTime : ℤ) : ℚ) / s.m_perMillisecond

/-- `GetRemaining`: `(m_interval + m_startTime.QuadPart - m_stopTime.QuadPart) / m_perMillisecond`. -/
def GetRemaining (s : State) : ℚ :=
  (s.m_interval + (s.m_startTime : ℚ) - (s.m_stopTime : ℚ)) / s.m_perMillisecond

/-- `IntervalHasElapsed`: `(m_stopTime.QuadPart - m_startTime.QuadPart) >= m_interval`
(the integer tick difference compared against the `double` interval). -/
def IntervalHasElapsed (s : State) : Bool :=
  decide (((s.m_stopTime - s.m_startTime : ℤ) : ℚ) ≥ s.m_interval)

end PT98W

namespace PT98L

/-- `struct timeval`: seconds and microseconds fields. -/
structure Timeval where
  tv_sec  : ℤ
  tv_usec : ℤ
deriving DecidableEq, Repr

/-- The `timersub` macro: componentwise difference with a borrow from the
seconds field when the microseconds difference is negative. -/
def timersub (a b : Timeval) : Timeval :=
  let sec := a.tv_sec - b.tv_sec
  let usec := a.tv_usec - b.tv_usec
  if usec < 0 then { tv_sec := sec - 1, tv_usec := usec + 1000000 }
  else { tv_sec := sec, tv_usec := usec }

/-- A `timeval` read as a rational number of seconds. -/
def Timeval.toSeconds (t : Timeval) : ℚ :=
  (t.tv_sec : ℚ) + (t.tv_usec : ℚ) / 1000000

/-- State of the Linux branch of `PerformanceTimer98`. -/
structure State where
  m_startTime : Timeval
  m_stopTime  : Timeval
  m_interval  : ℚ
deriving DecidableEq, Repr

/-- The constructor: `m_interval(1 / 60.0)` and both `timeval`s zeroed
by `memset`. -/
def State.mk0 : State :=
  { m_startTime := { tv_sec := 0, tv_usec := 0 },
    m_stopTime := { tv_sec := 0, tv_usec := 0 },
    m_interval := 1 / 60 }

/-- `IsSupportedPlatform`: `return true;`. -/
def IsSupportedPlatform (_ : State) : Bool := true

/-- `GetInterval`: `return m_interval;`. -/
def GetInterval (s : State) : ℚ := s.m_interval

/-- `SetInterval` (release semantics): if `ticksPerSecond == 0` return
without change, else `m_interval = 1 / ticksPerSecond`. -/
def SetInterval (s : State) (ticksPerSecond : ℚ) : State :=
  if ticksPerSecond = 0 then s
  else { s with m_interval := 1 / ticksPerSecond }

/-- The debug-build `assert(false)` in `SetInterval` fires exactly when
`ticksPerSecond == 0`. -/
def SetIntervalAsserts (ticksPerSecond : ℚ) : Bool := ticksPerSecond == 0

/-- `Start`: `gettimeofday(&m_startTime, NULL); m_stopTime = m_startTime;`. -/
def Start (s : State) (now : Timeval) : State :=
  { s with m_startTime := now, m_stopTime := now }

/-- `Stop`: `gettimeofday(&m_stopTime, NULL);`. -/
def Stop (s : State) (now : Timeval) : State :=
  { s with m_stopTime := now }

/-- `GetElapsed`: `timersub(stop, start)` into a local `diff`, then
`diff.tv_sec * 1000 + diff.tv_usec / 1000.0` (the local inlined here). -/
def GetElapsed (s : State) : ℚ :=
  ((timersub s.m_stopTime s.m_startTime).tv_sec : ℚ) * 1000
    + ((timersub s.m_stopTime s.m_startTime).tv_usec : ℚ) / 1000

/-- `GetRemaining`: `m_interval * 1000 - GetElapsed()`. -/
def GetRemaining (s : State) : ℚ := s.m_interval * 1000 - GetElapsed s

/-- `IntervalHasElapsed`: `timersub(stop, start)` into a local `diff`, then
`(diff.tv_sec + diff.tv_usec / 1000000.0) >= m_interval` (the local
inlined here). -/
def IntervalHasElapsed (s : State) : Bool :=
  decide (((timersub s.m_stopTime s.m_startTime).tv_sec : ℚ)
    + ((timersub s.m_stopTime s.m_startTime).tv_usec : ℚ) / 1000000 ≥ s.m_interval)

end PT98L

/-!
Operation sequences. A mutating call is `setInterval r`, `start` or
`stop`; the clock reading consumed by `start`/`stop` is carried in the
operation, with a type parameter `τ` for the reading's representation
(ticks `ℤ` for the Windows counter API, `Timeval` for `gettimeofday`,
seconds `ℚ` for the C++11 steady clock).
-/

/-- One mutating call on a timer, carrying the clock reading it consumes. -/
inductive Op (τ : Type) where
  | setInterval (ticksPerSecond : ℚ)
  | start (now : τ)
  | stop (now : τ)
deriving DecidableEq, Repr

/-- Translate the clock readings of an operation. -/
def Op.map {τ σ : Type} (f : τ → σ) : Op τ → Op σ
  | .setInterval r => .setInterval r
  | .start now => .start (f now)
  | .stop now => .stop (f now)

/-- Results of the five query methods, read off one state. -/
structure Obs where
  isSupportedPlatform : Bool
  getInterval : ℚ
  getElapsed : ℚ
  getRemaining : ℚ
  intervalHasElapsed : Bool
deriving DecidableEq, Repr

namespace PT11

/-- Apply one mutating call to a `PerformanceTimer11` state. -/
def step (s : State) : Op ℚ → State
  | .setInterval r => SetInterval s r
  | .start now => Start s now
  | .stop now => Stop s now

/-- Run a sequence of mutating calls from a state. -/
def run (s : State) : List (Op ℚ) → State
  | [] => s
  | op :: ops => run (step s op) ops

/-- All five queries on a `PerformanceTimer11` state. -/
def observe (s : State) : Obs :=
  { isSupportedPlatform := IsSupportedPlatform s,
    getInterval := GetInterval s,
    getElapsed := GetElapsed s,
    getRemaining := GetRemaining s,
    intervalHasElapsed := IntervalHasElapsed s }

end PT11

namespace PT98W

/-- Apply one mutating call to a Windows `PerformanceTimer98` state. -/
def step (s : State) : Op ℤ → State
  | .setInterval r => SetInterval s r
  | .start now => Start s now
  | .stop now => Stop s now

/-- Run a sequence of mutating calls from a state. -/
def run (s : State) : List (Op ℤ) → State
  | [] => s
  | op :: ops => run (step s op) ops

/-- All five queries on a Windows `PerformanceTimer98` state. -/
def observe (s : State) : Obs :=
  { isSupportedPlatform := IsSupportedPlatform s,
    getInterval := GetInterval s,
    getElapsed := GetElapsed s,
    getRemaining := GetRemaining s,
    intervalHasElapsed := IntervalHasElapsed s }

/-- A counter reading in ticks, abstracted to seconds on a clock of
frequency `freq` ticks per second. -/
def tickToSeconds (freq : ℤ) (t : ℤ) : ℚ := (t : ℚ) / (freq : ℚ)

/-- Abstraction of a Windows `PerformanceTimer98` state as a
`PerformanceTimer11` state: instants and interval converted from ticks
to seconds. -/
def abstractState (s : State) : PT11.State :=
  { m_startTime := tickToSeconds s.m_perSecond s.m_startTime,
    m_stopTime := tickToSeconds s.m_perSecond s.m_stopTime,
    m_interval := s.m_interval / (s.m_perSecond : ℚ) }

end PT98W

namespace PT98L

/-- Apply one mutating call to a Linux `PerformanceTimer98` state. -/
def step (s : State) : Op Timeval → State
  | .setInterval r => SetInterval s r
  | .start now => Start s now
  | .stop now => Stop s now

/-- Run a sequence of mutating calls from a state. -/
def run (s : State) : List (Op Timeval) → State
  | [] => s
  | op :: ops => run (step s op) ops

/-- All five queries on a Linux `PerformanceTimer98` state. -/
def observe (s : State) : Obs :=
  { isSupportedPlatform := IsSupportedPlatform s,
    getInterval := GetInterval s,
    getElapsed := GetElapsed s,
    getRemaining := GetRemaining s,
    intervalHasElapsed := IntervalHasElapsed s }

/-- Abstraction of a Linux `PerformanceTimer98` state as a
`PerformanceTimer11` state: `timeval` instants read as seconds. -/
def abstractState (s : State) : PT11.State :=
  { m_startTime := s.m_startTime.toSeconds,
    m_stopTime := s.m_stopTime.toSeconds,
    m_interval := s.m_interval }

end PT98L

/-!
Helper lemmas.
-/

/-- `step` never changes the calibration fields of the Windows timer. -/
theorem PT98W.step_calib (s : PT98W.State) (op : Op ℤ) :
    (PT98W.step s op).m_perSecond = s.m_perSecond
    ∧ (PT98W.step s op).m_perMillisecond = s.m_perMillisecond
    ∧ (PT98W.step s op).m_valid = s.m_valid := by
  cases op with
  | setInterval r => by_cases h : r = 0 <;> simp [PT98W.step, PT98W.SetInterval, h]
  | start now => exact ⟨rfl, rfl, rfl⟩
  | stop now => exact ⟨rfl, rfl, rfl⟩

/-- `run` never changes the calibration fields of the Windows timer. -/
theorem PT98W.run_calib (ops : List (Op ℤ)) (s : PT98W.State) :
    (PT98W.run s ops).m_perSecond = s.m_perSecond
    ∧ (PT98W.run s ops).m_perMillisecond = s.m_perMillisecond
    ∧ (PT98W.run s ops).m_valid = s.m_valid := by
  induction ops generalizing s with
  | nil => exact ⟨rfl, rfl, rfl⟩
  | cons op ops ih =>
      have h1 := PT98W.step_calib s op
      have h2 := ih (PT98W.step s op)
      simp only [PT98W.run]
      exact ⟨h2.1.trans h1.1, h2.2.1.trans h1.2.1, h2.2.2.trans h1.2.2⟩

/-- On any Windows-timer state where `m_perMillisecond` holds its
constructed value `m_perSecond / 1000`, the remaining-time query equals
the interval (in milliseconds) minus the elapsed time. -/
theorem PT98W.remaining_identity (s : PT98W.State)
    (h : s.m_perMillisecond = (s.m_perSecond : ℚ) / 1000) :
    PT98W.GetRemaining s = PT98W.GetInterval s * 1000 - PT98W.GetElapsed s := by
  unfold PT98W.GetRemaining PT98W.GetInterval PT98W.GetElapsed
  rw [h]
  rcases eq_or_ne (s.m_perSecond : ℚ) 0 with h0 | h0
  · simp [h0]
  · push_cast
    field_simp
    ring

/-- The seconds value of a `timersub` difference is the difference of the
seconds values: the borrow normalization does not change the value. -/
theorem PT98L.timersub_toSeconds (a b : PT98L.Timeval) :
    ((PT98L.timersub a b).tv_sec : ℚ)
      + ((PT98L.timersub a b).tv_usec : ℚ) / 1000000
      = a.toSeconds - b.toSeconds := by
  simp only [PT98L.timersub, PT98L.Timeval.toSeconds]
  split <;> push_cast <;> ring

/-- The Linux elapsed-milliseconds query equals the seconds difference of
the stored `timeval`s, scaled to milliseconds. -/
theorem PT98L.getElapsed_eq (s : PT98L.State) :
    PT98L.GetElapsed s
      = (s.m_stopTime.toSeconds - s.m_startTime.toSeconds) * 1000 := by
  unfold PT98L.GetElapsed
  rw [← PT98L.timersub_toSeconds s.m_stopTime s.m_startTime]
  ring

/-- On a Windows-timer state with sound calibration (positive frequency,
`m_perMillisecond = m_perSecond / 1000`) and a supported platform, the
five queries agree with the queries of the abstracted
`PerformanceTimer11` state. -/
theorem PT98W.observe_abstract (s : PT98W.State)
    (hps : 0 < (s.m_perSecond : ℚ))
    (hpm : s.m_perMillisecond = (s.m_perSecond : ℚ) / 1000)
    (hv : s.m_valid = true) :
    PT98W.observe s = PT11.observe (PT98W.abstractState s) := by
  have hne : (s.m_perSecond : ℚ) ≠ 0 := ne_of_gt hps
  simp only [PT98W.observe, PT11.observe, PT98W.abstractState, PT98W.tickToSeconds,
    PT98W.IsSupportedPlatform, PT11.IsSupportedPlatform,
    PT98W.GetInterval, PT11.GetInterval,
    PT98W.GetElapsed, PT11.GetElapsed,
    PT98W.GetRemaining, PT11.GetRemaining,
    PT98W.IntervalHasElapsed, PT11.IntervalHasElapsed,
    Obs.mk.injEq, hv, true_and, and_true]
  refine ⟨?_, ?_, ?_⟩
  · rw [hpm]
    push_cast
    field_simp
  · rw [hpm]
    field_simp
    ring
  · rw [decide_eq_decide, ge_iff_le, ge_iff_le]
    push_cast
    rw [div_sub_div_same]
    exact (div_le_div_iff_of_pos_right hps).symm

/-- One Windows-timer step commutes with abstraction to the
`PerformanceTimer11` model (clock readings converted to seconds). -/
theorem PT98W.abstract_step (s : PT98W.State) (op : Op ℤ)
    (h : (s.m_perSecond : ℚ) ≠ 0) :
    PT98W.abstractState (PT98W.step s op)
      = PT11.step (PT98W.abstractState s)
          (op.map (PT98W.tickToSeconds s.m_perSecond)) := by
  cases op with
  | setInterval r =>
      by_cases hr : r = 0
      · simp [PT98W.step, PT11.step, Op.map, PT98W.SetInterval, PT11.SetInterval, hr]
      · simp only [PT98W.step, PT11.step, Op.map, PT98W.SetInterval,
          PT11.SetInterval, if_neg hr, PT98W.abstractState, PT98W.tickToSeconds,
          PT11.State.mk.injEq, true_and, and_true]
        rw [div_div, mul_comm, ← div_div, div_self h]
  | start now => rfl
  | stop now => rfl

/-- A whole Windows-timer run commutes with abstraction to the
`PerformanceTimer11` model. -/
theorem PT98W.abstract_run (ops : List (Op ℤ)) (s : PT98W.State)
    (h : (s.m_perSecond : ℚ) ≠ 0) :
    PT98W.abstractState (PT98W.run s ops)
      = PT11.run (PT98W.abstractState s)
          (ops.map (Op.map (PT98W.tickToSeconds s.m_perSecond))) := by
  induction ops generalizing s with
  | nil => rfl
  | cons op ops ih =>
      simp only [PT98W.run, List.map, PT11.run]
      have hps : (PT98W.step s op).m_perSecond = s.m_perSecond :=
        (PT98W.step_calib s op).1
      have hih := ih (PT98W.step s op) (by rw [hps]; exact h)
      rw [hih, hps, PT98W.abstract_step s op h]

/-- The five queries of a Linux-timer state agree with the queries of the
abstracted `PerformanceTimer11` state. -/
theorem PT98L.observe_abstract_lin (s : PT98L.State) :
    PT98L.observe s = PT11.observe (PT98L.abstractState s) := by
  simp only [PT98L.observe, PT11.observe, PT98L.abstractState,
    PT98L.IsSupportedPlatform, PT11.IsSupportedPlatform,
    PT98L.GetInterval, PT11.GetInterval,
    PT11.GetElapsed, PT11.GetRemaining, PT98L.GetRemaining,
    PT98L.IntervalHasElapsed, PT11.IntervalHasElapsed,
    Obs.mk.injEq, true_and, and_true]
  refine ⟨?_, ?_, ?_⟩
  · exact PT98L.getElapsed_eq s
  · rw [PT98L.getElapsed_eq]
  · rw [decide_eq_decide, ge_iff_le, ge_iff_le, PT98L.timersub_toSeconds]

/-- One Linux-timer step commutes with abstraction to the
`PerformanceTimer11` model (clock readings converted to seconds). -/
theorem PT98L.abstract_step_lin (s : PT98L.State) (op : Op PT98L.Timeval) :
    PT98L.abstractState (PT98L.step s op)
      = PT11.step (PT98L.abstractState s) (op.map PT98L.Timeval.toSeconds) := by
  cases op with
  | setInterval r =>
      by_cases hr : r = 0 <;>
        simp [PT98L.step, PT11.step, Op.map, PT98L.SetInterval,
          PT11.SetInterval, hr, PT98L.abstractState]
  | start now => rfl
  | stop now => rfl

/-- A whole Linux-timer run commutes with abstraction to the
`PerformanceTimer11` model. -/
theorem PT98L.abstract_run_lin (ops : List (Op PT98L.Timeval)) (s : PT98L.State) :
    PT98L.abstractState (PT98L.run s ops)
      = PT11.run (PT98L.abstractState s) (ops.map (Op.map PT98L.Timeval.toSeconds)) := by
  induction ops generalizing s with
  | nil => rfl
  | cons op ops ih =>
      simp only [PT98L.run, List.map, PT11.run]
      rw [ih (PT98L.step s op), PT98L.abstract_step_lin s op]

/-- The constructed Windows-timer state abstracts to the
default-constructed `PerformanceTimer11` state whenever the queried clock
frequency is nonzero. -/
theorem PT98W.abstract_mk0 (freq : ℤ) (valid : Bool) (h : (freq : ℚ) ≠ 0) :
    PT98W.abstractState (PT98W.State.mk0 freq valid) = PT11.State.mk0 := by
  simp only [PT98W.abstractState, PT98W.State.mk0, PT98W.tickToSeconds,
    PT11.State.mk0, PT11.State.mk.injEq, Int.cast_zero, zero_div, true_and]
  rw [div_div, mul_comm, ← div_div, div_self h]

/-- The constructed Linux-timer state abstracts to the
default-constructed `PerformanceTimer11` state. -/
theorem PT98L.abstract_mk0_lin :
    PT98L.abstractState PT98L.State.mk0 = PT11.State.mk0 := by
  simp [PT98L.abstractState, PT98L.State.mk0, PT98L.Timeval.toSeconds,
    PT11.State.mk0]

/-!
The claims.
-/

/-- Claim C1: for every reachable timer state (produced by any sequence
of construction, setInterval, start, stop calls), `GetRemaining` equals
exactly `GetInterval * 1000 - GetElapsed`, with no further rounding
discrepancy. For `PerformanceTimer11` and the Linux `PerformanceTimer98`
the identity holds on every state; for the Windows `PerformanceTimer98`
it holds on every state reachable from the constructor. -/
theorem C1_remaining_is_interval_minus_elapsed :
    (∀ s : PT11.State,
        PT11.GetRemaining s = PT11.GetInterval s * 1000 - PT11.GetElapsed s)
    ∧ (∀ s : PT98L.State,
        PT98L.GetRemaining s = PT98L.GetInterval s * 1000 - PT98L.GetElapsed s)
    ∧ (∀ (freq : ℤ) (valid : Bool) (ops : List (Op ℤ)),
        PT98W.GetRemaining (PT98W.run (PT98W.State.mk0 freq valid) ops)
          = PT98W.GetInterval (PT98W.run (PT98W.State.mk0 freq valid) ops) * 1000
            - PT98W.GetElapsed (PT98W.run (PT98W.State.mk0 freq valid) ops)) := by
  refine ⟨fun s => rfl, fun s => rfl, fun freq valid ops => ?_⟩
  apply PT98W.remaining_identity
  have h := PT98W.run_calib ops (PT98W.State.mk0 freq valid)
  rw [h.2.1, h.1]
  simp [PT98W.State.mk0]

/-- Claim C2: `IntervalHasElapsed` returns true iff the difference of the
stored instants is at least the stored interval, with the comparison at
the clock's native resolution: seconds-valued steady-clock durations for
`PerformanceTimer11`, raw integer ticks for the Windows
`PerformanceTimer98`, and the exact microsecond content of the `timeval`s
for the Linux `PerformanceTimer98`. -/
theorem C2_intervalHasElapsed_iff :
    (∀ s : PT11.State,
        PT11.IntervalHasElapsed s = true
          ↔ s.m_stopTime - s.m_startTime ≥ s.m_interval)
    ∧ (∀ s : PT98W.State,
        PT98W.IntervalHasElapsed s = true
          ↔ ((s.m_stopTime - s.m_startTime : ℤ) : ℚ) ≥ s.m_interval)
    ∧ (∀ s : PT98L.State,
        PT98L.IntervalHasElapsed s = true
          ↔ s.m_stopTime.toSeconds - s.m_startTime.toSeconds ≥ s.m_interval) := by
  refine ⟨fun s => ?_, fun s => ?_, fun s => ?_⟩
  · exact decide_eq_true_iff
  · exact decide_eq_true_iff
  · rw [PT98L.IntervalHasElapsed, decide_eq_true_iff, ge_iff_le, ge_iff_le,
      PT98L.timersub_toSeconds]

/-- Claim C3: for every nonzero rate `r` (positive or negative),
`SetInterval r` followed by `GetInterval` yields exactly `1 / r` seconds,
whatever the prior interval and recorded instants; for the Windows
variant this holds on every state whose stored clock frequency is
nonzero, as on any supported platform. -/
theorem C3_setInterval_roundtrip (r : ℚ) (hr : r ≠ 0) :
    (∀ s : PT11.State, PT11.GetInterval (PT11.SetInterval s r) = 1 / r)
    ∧ (∀ s : PT98L.State, PT98L.GetInterval (PT98L.SetInterval s r) = 1 / r)
    ∧ (∀ s : PT98W.State, (s.m_perSecond : ℚ) ≠ 0 →
        PT98W.GetInterval (PT98W.SetInterval s r) = 1 / r) := by
  refine ⟨fun s => ?_, fun s => ?_, fun s hps => ?_⟩
  · simp [PT11.SetInterval, PT11.GetInterval, if_neg hr]
  · simp [PT98L.SetInterval, PT98L.GetInterval, if_neg hr]
  · simp only [PT98W.SetInterval, if_neg hr, PT98W.GetInterval]
    rw [div_div, mul_comm, ← div_div, div_self hps]

/-- Witness for C3: `setInterval(30)` then `getInterval()` returns `1/30`
in each implementation (Windows variant on a 10 MHz clock). -/
theorem C3_setInterval_roundtrip_witness :
    PT11.GetInterval (PT11.SetInterval PT11.State.mk0 30) = 1 / 30
    ∧ PT98L.GetInterval (PT98L.SetInterval PT98L.State.mk0 30) = 1 / 30
    ∧ PT98W.GetInterval
        (PT98W.SetInterval (PT98W.State.mk0 10000000 true) 30) = 1 / 30 := by
  have h := C3_setInterval_roundtrip 30 (by norm_num)
  exact ⟨h.1 _, h.2.1 _, h.2.2 _ (by norm_num [PT98W.State.mk0])⟩

/-- Claim C4: `SetInterval 0` fires the debug-build assertion and mutates
no stored state: the resulting state is the argument state itself, so in
particular `GetInterval` and both recorded instants are unchanged. -/
theorem C4_setInterval_zero_is_noop :
    (∀ s : PT11.State, PT11.SetInterval s 0 = s
        ∧ PT11.GetInterval (PT11.SetInterval s 0) = PT11.GetInterval s)
    ∧ (∀ s : PT98L.State, PT98L.SetInterval s 0 = s
        ∧ PT98L.GetInterval (PT98L.SetInterval s 0) = PT98L.GetInterval s)
    ∧ (∀ s : PT98W.State, PT98W.SetInterval s 0 = s
        ∧ PT98W.GetInterval (PT98W.SetInterval s 0) = PT98W.GetInterval s)
    ∧ PT11.SetIntervalAsserts 0 = true
    ∧ PT98L.SetIntervalAsserts 0 = true
    ∧ PT98W.SetIntervalAsserts 0 = true := by
  have h11 : ∀ s : PT11.State, PT11.SetInterval s 0 = s := fun s => if_pos rfl
  have hL : ∀ s : PT98L.State, PT98L.SetInterval s 0 = s := fun s => if_pos rfl
  have hW : ∀ s : PT98W.State, PT98W.SetInterval s 0 = s := fun s => if_pos rfl
  exact ⟨fun s => ⟨h11 s, by rw [h11 s]⟩, fun s => ⟨hL s, by rw [hL s]⟩,
    fun s => ⟨hW s, by rw [hW s]⟩, rfl, rfl, rfl⟩

/-- Claim C5: immediately after `Start`, the stop instant equals the
start instant, `GetElapsed` is exactly 0, and — provided the stored
interval is positive — `IntervalHasElapsed` is false, in all three
implementations. -/
theorem C5_start_resets (s11 : PT11.State) (t11 : ℚ)
    (sW : PT98W.State) (tW : ℤ) (sL : PT98L.State) (tL : PT98L.Timeval) :
    ((PT11.Start s11 t11).m_stopTime = (PT11.Start s11 t11).m_startTime
      ∧ PT11.GetElapsed (PT11.Start s11 t11) = 0
      ∧ (0 < s11.m_interval →
          PT11.IntervalHasElapsed (PT11.Start s11 t11) = false))
    ∧ ((PT98W.Start sW tW).m_stopTime = (PT98W.Start sW tW).m_startTime
      ∧ PT98W.GetElapsed (PT98W.Start sW tW) = 0
      ∧ (0 < sW.m_interval →
          PT98W.IntervalHasElapsed (PT98W.Start sW tW) = false))
    ∧ ((PT98L.Start sL tL).m_stopTime = (PT98L.Start sL tL).m_startTime
      ∧ PT98L.GetElapsed (PT98L.Start sL tL) = 0
      ∧ (0 < sL.m_interval →
          PT98L.IntervalHasElapsed (PT98L.Start sL tL) = false)) := by
  refine ⟨⟨rfl, ?_, fun h => ?_⟩, ⟨rfl, ?_, fun h => ?_⟩, ⟨rfl, ?_, fun h => ?_⟩⟩
  · simp [PT11.GetElapsed, PT11.Start]
  · simp only [PT11.IntervalHasElapsed, PT11.Start, sub_self, ge_iff_le,
      decide_eq_false_iff_not, not_le]
    exact h
  · simp [PT98W.GetElapsed, PT98W.Start]
  · simp only [PT98W.IntervalHasElapsed, PT98W.Start, sub_self, Int.cast_zero,
      ge_iff_le, decide_eq_false_iff_not, not_le]
    exact h
  · simp [PT98L.GetElapsed, PT98L.Start, PT98L.timersub]
  · simp only [PT98L.IntervalHasElapsed, PT98L.Start, PT98L.timersub, sub_self,
      lt_irrefl, if_false, Int.cast_zero, zero_div, add_zero, ge_iff_le,
      decide_eq_false_iff_not, not_le]
    exact h

/-- Witness for C5 at concrete states and clock readings (Windows variant
on a 1 kHz clock, whose default interval 1000/60 ticks is positive). -/
theorem C5_start_resets_witness :
    PT11.GetElapsed (PT11.Start PT11.State.mk0 5) = 0
    ∧ PT11.IntervalHasElapsed (PT11.Start PT11.State.mk0 5) = false
    ∧ PT98W.GetElapsed (PT98W.Start (PT98W.State.mk0 1000 true) 777) = 0
    ∧ PT98W.IntervalHasElapsed (PT98W.Start (PT98W.State.mk0 1000 true) 777) = false
    ∧ PT98L.GetElapsed (PT98L.Start PT98L.State.mk0 ⟨3, 500⟩) = 0
    ∧ PT98L.IntervalHasElapsed (PT98L.Start PT98L.State.mk0 ⟨3, 500⟩) = false := by
  have h := C5_start_resets PT11.State.mk0 5 (PT98W.State.mk0 1000 true) 777
    PT98L.State.mk0 ⟨3, 500⟩
  exact ⟨h.1.2.1, h.1.2.2 (by norm_num [PT11.State.mk0]),
    h.2.1.2.1, h.2.1.2.2 (by norm_num [PT98W.State.mk0]),
    h.2.2.2.1, h.2.2.2.2 (by norm_num [PT98L.State.mk0])⟩

/-- Claim C6: a negative nonzero rate `r` is accepted without validation
(the assertion does not fire) and `SetInterval r` stores the negative
interval `1 / r`; on any `PerformanceTimer11` state whose interval is
negative, whenever the stop instant is at least the start instant,
`IntervalHasElapsed` returns true. -/
theorem C6_negative_rate_always_elapsed (r : ℚ) (hr : r < 0) :
    PT11.SetIntervalAsserts r = false
    ∧ (∀ s : PT11.State, (PT11.SetInterval s r).m_interval = 1 / r
        ∧ (PT11.SetInterval s r).m_interval < 0)
    ∧ (∀ s : PT11.State, s.m_interval < 0 → s.m_startTime ≤ s.m_stopTime →
        PT11.IntervalHasElapsed s = true) := by
  have hne : r ≠ 0 := ne_of_lt hr
  have hint : ∀ s : PT11.State, (PT11.SetInterval s r).m_interval = 1 / r :=
    fun s => by simp [PT11.SetInterval, if_neg hne]
  refine ⟨?_, fun s => ⟨hint s, ?_⟩, fun s h1 h2 => ?_⟩
  · simp [PT11.SetIntervalAsserts, hne]
  · rw [hint s]
    exact one_div_neg.mpr hr
  · simp only [PT11.IntervalHasElapsed, ge_iff_le, decide_eq_true_eq]
    exact le_trans h1.le (sub_nonneg.mpr h2)

/-- Witness for C6 at `r = -2` and a concrete run `setInterval(-2)`,
`start` at 0, `stop` at 1. -/
theorem C6_negative_rate_always_elapsed_witness :
    PT11.SetIntervalAsserts (-2) = false
    ∧ (PT11.SetInterval PT11.State.mk0 (-2)).m_interval = 1 / (-2)
    ∧ PT11.IntervalHasElapsed
        (PT11.Stop (PT11.Start (PT11.SetInterval PT11.State.mk0 (-2)) 0) 1) = true := by
  have h := C6_negative_rate_always_elapsed (-2) (by norm_num)
  exact ⟨h.1, (h.2.1 PT11.State.mk0).1,
    h.2.2 _
      (by norm_num [PT11.SetInterval, PT11.Start, PT11.Stop, PT11.State.mk0])
      (by norm_num [PT11.SetInterval, PT11.Start, PT11.Stop, PT11.State.mk0])⟩

/-- Claim C7: the counter-API timer (`PerformanceTimer98`) and the
standard-monotonic-clock timer (`PerformanceTimer11`) are observationally
equivalent behind the common seven-method contract: on a supported
platform with positive clock frequency, every sequence of
setInterval/start/stop calls leaves the two models with identical results
for all five queries, once the Windows tick readings are converted to
seconds; likewise the Linux `gettimeofday` variant with its `timeval`
readings converted to seconds. -/
theorem C7_observational_equivalence :
    (∀ (freq : ℤ), 0 < freq → ∀ ops : List (Op ℤ),
        PT98W.observe (PT98W.run (PT98W.State.mk0 freq true) ops)
          = PT11.observe (PT11.run PT11.State.mk0
              (ops.map (Op.map (PT98W.tickToSeconds freq)))))
    ∧ (∀ ops : List (Op PT98L.Timeval),
        PT98L.observe (PT98L.run PT98L.State.mk0 ops)
          = PT11.observe (PT11.run PT11.State.mk0
              (ops.map (Op.map PT98L.Timeval.toSeconds)))) := by
  constructor
  · intro freq hf ops
    have hfQ : (0 : ℚ) < (freq : ℚ) := by exact_mod_cast hf
    have h0 : (freq : ℚ) ≠ 0 := ne_of_gt hfQ
    have hcal := PT98W.run_calib ops (PT98W.State.mk0 freq true)
    have hps : 0 < ((PT98W.run (PT98W.State.mk0 freq true) ops).m_perSecond : ℚ) := by
      rw [hcal.1]; exact hfQ
    have hpm : (PT98W.run (PT98W.State.mk0 freq true) ops).m_perMillisecond
        = ((PT98W.run (PT98W.State.mk0 freq true) ops).m_perSecond : ℚ) / 1000 := by
      rw [hcal.2.1, hcal.1]; simp [PT98W.State.mk0]
    have hv : (PT98W.run (PT98W.State.mk0 freq true) ops).m_valid = true := by
      rw [hcal.2.2]; rfl
    rw [PT98W.observe_abstract _ hps hpm hv,
      PT98W.abstract_run ops _ h0, PT98W.abstract_mk0 freq true h0]
    rfl
  · intro ops
    rw [PT98L.observe_abstract_lin, PT98L.abstract_run_lin ops PT98L.State.mk0,
      PT98L.abstract_mk0_lin]

/-- Witness for C7 at a 1 kHz Windows clock and the concrete call
sequence setInterval(50), start at tick 100, stop at tick 1200. -/
theorem C7_observational_equivalence_witness :
    PT98W.observe (PT98W.run (PT98W.State.mk0 1000 true)
        [Op.setInterval 50, Op.start 100, Op.stop 1200])
      = PT11.observe (PT11.run PT11.State.mk0
          ([Op.setInterval 50, Op.start 100, Op.stop 1200].map
            (Op.map (PT98W.tickToSeconds 1000)))) :=
  C7_observational_equivalence.1 1000 (by norm_num)
    [Op.setInterval 50, Op.start 100, Op.stop 1200]

/-- Claim C8: `Stop` writes only the stop instant with the current clock
reading — the start instant, the interval (and, on Windows, the
calibration fields) are unchanged by every call — repeated stops without
an intervening start just overwrite the stop instant, and elapsed time
after a repeated stop is still measured from the original start mark. -/
theorem C8_stop_writes_only_stop :
    (∀ (s : PT11.State) (t : ℚ),
        (PT11.Stop s t).m_startTime = s.m_startTime
        ∧ (PT11.Stop s t).m_interval = s.m_interval
        ∧ (PT11.Stop s t).m_stopTime = t)
    ∧ (∀ (s : PT11.State) (t₁ t₂ : ℚ),
        PT11.Stop (PT11.Stop s t₁) t₂ = PT11.Stop s t₂
        ∧ PT11.GetElapsed (PT11.Stop (PT11.Stop s t₁) t₂)
            = (t₂ - s.m_startTime) * 1000)
    ∧ (∀ (s : PT98W.State) (t : ℤ),
        (PT98W.Stop s t).m_startTime = s.m_startTime
        ∧ (PT98W.Stop s t).m_interval = s.m_interval
        ∧ (PT98W.Stop s t).m_perSecond = s.m_perSecond
        ∧ (PT98W.Stop s t).m_perMillisecond = s.m_perMillisecond
        ∧ (PT98W.Stop s t).m_valid = s.m_valid
        ∧ (PT98W.Stop s t).m_stopTime = t)
    ∧ (∀ (s : PT98W.State) (t₁ t₂ : ℤ),
        PT98W.Stop (PT98W.Stop s t₁) t₂ = PT98W.Stop s t₂)
    ∧ (∀ (s : PT98L.State) (t : PT98L.Timeval),
        (PT98L.Stop s t).m_startTime = s.m_startTime
        ∧ (PT98L.Stop s t).m_interval = s.m_interval
        ∧ (PT98L.Stop s t).m_stopTime = t)
    ∧ (∀ (s : PT98L.State) (t₁ t₂ : PT98L.Timeval),
        PT98L.Stop (PT98L.Stop s t₁) t₂ = PT98L.Stop s t₂) :=
  ⟨fun _ _ => ⟨rfl, rfl, rfl⟩,
   fun _ _ _ => ⟨rfl, rfl⟩,
   fun _ _ => ⟨rfl, rfl, rfl, rfl, rfl, rfl⟩,
   fun _ _ _ => rfl,
   fun _ _ => ⟨rfl, rfl, rfl⟩,
   fun _ _ _ => rfl⟩

/-- Claim C9: a default-constructed timer reports an interval of 1/60
seconds from `GetInterval`, in all three implementations (for the Windows
variant given a nonzero queried clock frequency, as holds on any
supported platform). -/
theorem C9_default_interval :
    PT11.GetInterval PT11.State.mk0 = 1 / 60
    ∧ PT98L.GetInterval PT98L.State.mk0 = 1 / 60
    ∧ ∀ (freq : ℤ) (valid : Bool), (freq : ℚ) ≠ 0 →
        PT98W.GetInterval (PT98W.State.mk0 freq valid) = 1 / 60 := by
  refine ⟨rfl, rfl, fun freq valid h => ?_⟩
  simp only [PT98W.GetInterval, PT98W.State.mk0]
  rw [div_div, mul_comm, ← div_div, div_self h]

/-- Witness for C9 on a 10 MHz Windows clock. -/
theorem C9_default_interval_witness :
    PT98W.GetInterval (PT98W.State.mk0 10000000 true) = 1 / 60 :=
  C9_default_interval.2.2 10000000 true (by norm_num)

/-- Claim C10: on a default-constructed timer on which `Start` was never
called, the start and stop instants are equal (zero / the clock epoch),
`GetElapsed` returns 0, `GetRemaining` returns the full interval in
milliseconds (`GetInterval * 1000`), and `IntervalHasElapsed` returns
false — queries before the first start are well defined. For the Windows
variant this is stated for a positive queried clock frequency. -/
theorem C10_default_state_queries :
    (PT11.State.mk0.m_startTime = PT11.State.mk0.m_stopTime
      ∧ PT11.State.mk0.m_startTime = 0
      ∧ PT11.GetElapsed PT11.State.mk0 = 0
      ∧ PT11.GetRemaining PT11.State.mk0 = PT11.GetInterval PT11.State.mk0 * 1000
      ∧ PT11.IntervalHasElapsed PT11.State.mk0 = false)
    ∧ (PT98L.State.mk0.m_startTime = PT98L.State.mk0.m_stopTime
      ∧ PT98L.State.mk0.m_startTime = ⟨0, 0⟩
      ∧ PT98L.GetElapsed PT98L.State.mk0 = 0
      ∧ PT98L.GetRemaining PT98L.State.mk0 = PT98L.GetInterval PT98L.State.mk0 * 1000
      ∧ PT98L.IntervalHasElapsed PT98L.State.mk0 = false)
    ∧ ∀ (freq : ℤ) (valid : Bool), 0 < freq →
        ((PT98W.State.mk0 freq valid).m_startTime
            = (PT98W.State.mk0 freq valid).m_stopTime
          ∧ (PT98W.State.mk0 freq valid).m_startTime = 0
          ∧ PT98W.GetElapsed (PT98W.State.mk0 freq valid) = 0
          ∧ PT98W.GetRemaining (PT98W.State.mk0 freq valid)
              = PT98W.GetInterval (PT98W.State.mk0 freq valid) * 1000
          ∧ PT98W.IntervalHasElapsed (PT98W.State.mk0 freq valid) = false) := by
  refine ⟨⟨rfl, rfl, ?_, ?_, ?_⟩, ⟨rfl, rfl, ?_, ?_, ?_⟩,
    fun freq valid hf => ⟨rfl, rfl, ?_, ?_, ?_⟩⟩
  · norm_num [PT11.GetElapsed, PT11.State.mk0]
  · norm_num [PT11.GetRemaining, PT11.GetInterval, PT11.State.mk0]
  · simp only [PT11.IntervalHasElapsed, PT11.State.mk0, ge_iff_le,
      decide_eq_false_iff_not, not_le]
    norm_num
  · norm_num [PT98L.GetElapsed, PT98L.State.mk0, PT98L.timersub]
  · norm_num [PT98L.GetRemaining, PT98L.GetElapsed, PT98L.GetInterval,
      PT98L.State.mk0, PT98L.timersub]
  · simp only [PT98L.IntervalHasElapsed, PT98L.State.mk0, PT98L.timersub,
      ge_iff_le, decide_eq_false_iff_not, not_le]
    norm_num
  · simp [PT98W.GetElapsed, PT98W.State.mk0]
  · have h : (freq : ℚ) ≠ 0 := by
      exact_mod_cast ne_of_gt hf
    simp only [PT98W.GetRemaining, PT98W.GetInterval, PT98W.State.mk0,
      Int.cast_zero, add_zero, sub_zero]
    field_simp
  · have hfQ : (0 : ℚ) < (freq : ℚ) := by exact_mod_cast hf
    simp only [PT98W.IntervalHasElapsed, PT98W.State.mk0, sub_self,
      Int.cast_zero, ge_iff_le, decide_eq_false_iff_not, not_le]
    exact div_pos hfQ (by norm_num)

/-- Witness for C10 on a 1 kHz Windows clock. -/
theorem C10_default_state_queries_witness :
    PT98W.GetElapsed (PT98W.State.mk0 1000 true) = 0
    ∧ PT98W.GetRemaining (PT98W.State.mk0 1000 true)
        = PT98W.GetInterval (PT98W.State.mk0 1000 true) * 1000
    ∧ PT98W.IntervalHasElapsed (PT98W.State.mk0 1000 true) = false := by
  have h := C10_default_state_queries.2.2 1000 true (by norm_num)
  exact ⟨h.2.2.1, h.2.2.2.1, h.2.2.2.2⟩
